import Mathlib

/-!
Verification of the user-account controllers in
`src/controllers/user-controllers.js` (birulboy/Proyecto-22).

The file is a shallow embedding of that controller module.  External
collaborators (bcrypt, the jose JWT library, the Postgres pool, the
`TextEncoder` web API) are modelled as executable Lean functions that follow
their documented behaviour at the call sites the controllers use; the
controllers themselves are translated statement by statement from the source.

A central fact of the source, reflected faithfully here: each export is of the
form `export const h = (authenticateToken, validateUser, async (req,res) => …)`.
In JavaScript the parenthesised list is the comma operator, whose value is the
LAST operand only, so every exported handler is just the final arrow function;
`authenticateToken` and `validateUser` are evaluated as expressions (no-ops)
and discarded.  The embedded handlers therefore contain no authentication or
validation step, while `authenticateToken` itself is embedded separately.
-/

namespace Proyecto22

/-- Model of a bcrypt digest.  bcrypt embeds the random salt in the digest and
`bcrypt.compare` recomputes the hash of the candidate with that salt, so a
digest is determined by the plaintext that produced it together with the salt;
the one-way property of the transform is outside the model. -/
structure BHash where
  plaintext : String
  salt : Nat
deriving Repr, DecidableEq

/-- Model of `bcrypt.hash(plaintext, 10)`: the cost factor is fixed at 10 by
both call sites; the random salt is an explicit parameter. -/
def bcryptHash (p : String) (salt : Nat) : BHash := ⟨p, salt⟩

/-- Model of `bcrypt.compare(candidate, digest)`: recomputes with the salt
embedded in the digest and compares; true exactly when the candidate equals
the plaintext the digest was built from. -/
def bcryptCompare (p : String) (h : BHash) : Bool := p == h.plaintext

/-- Model of `new TextEncoder().encode(x)` applied to `process.env.secret`.
Per WebIDL, `encode` takes an optional `USVString` defaulting to the empty
string, so `encode(undefined)` (secret absent from the environment) encodes
the empty string.  Byte sequences are abstracted to the encoded string itself
(UTF-8 encoding is injective, and the key is only ever compared for
equality). -/
def textEncode : Option String → String
  | none => ""
  | some s => s

/-- JWT protected header as set by `setProtectedHeader`. -/
structure JwtHeader where
  alg : String
  typ : String
deriving Repr, DecidableEq

/-- JWT claim set as built by the login handler: the single custom claim
`id_users` (a string, the user id interpolated into a template literal), plus
the registered `iat` and `exp` claims in seconds. -/
structure JwtPayload where
  id_users : String
  iat : Nat
  exp : Nat
deriving Repr, DecidableEq

/-- A token as seen by `jwtVerify`: either a structurally valid compact JWS
(carrying the key its signature was computed with — signature validity is
modelled as key equality) or a malformed string. -/
inductive Jwt where
  | signed (header : JwtHeader) (payload : JwtPayload) (key : String) : Jwt
  | malformed (raw : String) : Jwt
deriving Repr, DecidableEq

/-- Reasons `jwtVerify` rejects a token (the thrown error classes). -/
inductive VerifyError where
  | malformedTok
  | badSignature
  | notYetValid
  | expired
deriving Repr, DecidableEq

/-- Model of `jose.jwtVerify(token, key)` at time `now` (seconds): rejects a
malformed token, a signature not made with `key`, and a current time outside
the validity window `[iat, exp]` described in the spec; otherwise returns the
payload. -/
def jwtVerify (tok : Jwt) (key : String) (now : Nat) : Except VerifyError JwtPayload :=
  match tok with
  | .malformed _ => .error .malformedTok
  | .signed _ p k =>
    if k ≠ key then .error .badSignature
    else if now < p.iat then .error .notYetValid
    else if p.exp < now then .error .expired
    else .ok p

/-- Boolean success test for a verification result. -/
def verifyOk : Except VerifyError JwtPayload → Bool
  | .ok _ => true
  | .error _ => false

/-- Model of the `SignJWT` chain in `login`: claim set `{ id_users }`,
protected header `{alg: HS256, typ: JWT}`, issued-at the current time,
expiration `7h` after the current time, signed with `key`. -/
def signJwt (id_users : String) (key : String) (now : Nat) : Jwt :=
  .signed ⟨"HS256", "JWT"⟩ ⟨id_users, now, now + 7 * 3600⟩ key

/-- A row of the `users` table: `id_users` (serial primary key), `name`,
`email`, and `password` holding the bcrypt digest. -/
structure UserRow where
  id_users : Nat
  name : String
  email : String
  password : BHash
deriving Repr, DecidableEq

/-- A user object as serialized into a response body; `password := none`
models `delete user.password` having removed the field. -/
structure SerUser where
  id_users : Nat
  name : String
  email : String
  password : Option BHash
deriving Repr, DecidableEq

/-- Serialization of a fetched row: all columns, password included. -/
def UserRow.serialize (u : UserRow) : SerUser :=
  ⟨u.id_users, u.name, u.email, some u.password⟩

/-- Response bodies the controllers produce: a plain text message
(`res.send(string)`), a single user object, an array of user objects, or the
`{ jwt }` object returned by login. -/
inductive Body where
  | text (s : String)
  | userJson (u : SerUser)
  | usersJson (l : List SerUser)
  | jwtJson (j : Jwt)
deriving Repr, DecidableEq

/-- True when a serialized body carries a stored password digest. -/
def Body.exposesPassword : Body → Bool
  | .text _ => false
  | .userJson u => u.password.isSome
  | .usersJson l => l.any (fun u => u.password.isSome)
  | .jwtJson _ => false

/-- An HTTP response: status code and body.  `res.send(x)` without a prior
`res.status` uses status 200. -/
structure Response where
  status : Nat
  body : Body
deriving Repr, DecidableEq

/-- The Postgres pool as the handlers see it: the current table contents, a
flag saying whether the next statements fail (a store failure makes
`pool.query` reject, landing in the handler's catch block), the sequence
value backing the serial `id_users` column, and a log of the SQL statements
executed so far. -/
structure Store where
  rows : List UserRow
  failing : Bool
  nextId : Nat
  log : List String
deriving Repr, DecidableEq

/-- Record that a statement reached the store. -/
def Store.exec (s : Store) (sql : String) : Store :=
  { s with log := s.log ++ [sql] }

/-- The repository fetch `SELECT * FROM users WHERE id_users = $1 → rows[0]`
used to state the subsequent-fetch part of the delete contract. -/
def Store.findById (s : Store) (id : Nat) : Option UserRow :=
  s.rows.find? (fun u => u.id_users == id)

/-- JavaScript falsiness of an optional string field, as tested by
`if (!x)`: an absent field (`undefined`) and the empty string are falsy. -/
def jsFalsy : Option String → Bool
  | none => true
  | some s => s.isEmpty

/-- Outcome of the `authenticateToken` middleware: either a response sent
without calling `next`, or `next()` called with the payload attached as
`req.user`. -/
inductive AuthResult where
  | denied (r : Response)
  | granted (payload : JwtPayload)
deriving Repr, DecidableEq

/-- Embedding of `authenticateToken` (lines 11–25): 401 when the
`authorization` header is absent; otherwise verify the header verbatim
against `encoder.encode(secret)` and either attach the payload and continue
or answer 401 from the catch block.  All verification failures land in the
same catch and produce the identical response. -/
def authenticateToken (authorization : Option Jwt) (secret : Option String)
    (now : Nat) : AuthResult :=
  match authorization with
  | none => .denied ⟨401, .text "Token no proporcionado"⟩
  | some tok =>
    match jwtVerify tok (textEncode secret) now with
    | .error _ => .denied ⟨401, .text "Token inválido o expirado"⟩
    | .ok p => .granted p

/-- Embedding of the exported `getUser` (lines 28–36).  The export is the
comma expression `(authenticateToken, validateUser, handler)`, whose value is
the handler alone, so no token check occurs: the handler goes straight to
`SELECT * FROM users` and answers 200 with the full rows (passwords included)
or 500 from the catch block. -/
def getUser (s : Store) : Response × Store :=
  let s' := s.exec "SELECT * FROM users"
  if s.failing then (⟨500, .text "Error retrieving users"⟩, s')
  else (⟨200, .usersJson (s.rows.map UserRow.serialize)⟩, s')

/-- Embedding of the exported `createUser` (lines 39–53); as with every
export, the comma expression discards `validateUser`.  `bcrypt.hash` rejects
an `undefined` password (landing in the catch block as a 500); otherwise the
row is inserted with a server-generated id and answered back in full,
password digest included, with status 201. -/
def createUser (name email : String) (password : Option String) (salt : Nat)
    (s : Store) : Response × Store :=
  match password with
  | none => (⟨500, .text "Error creating user"⟩, s)
  | some pw =>
    let hashed := bcryptHash pw salt
    let s' := s.exec "INSERT INTO users (name, email, password) VALUES ($1, $2, $3) RETURNING *"
    if s.failing then (⟨500, .text "Error creating user"⟩, s')
    else
      let row : UserRow := ⟨s.nextId, name, email, hashed⟩
      (⟨201, .userJson row.serialize⟩,
       { s' with rows := s.rows ++ [row], nextId := s.nextId + 1 })

/-- Embedding of the exported `login` (lines 56–84): 400 when email or
password is falsy; then `SELECT * FROM users WHERE email = $1` (500 on store
failure); 401 when no row matches; 401 when `bcrypt.compare` rejects;
otherwise sign the JWT described by `signJwt` and answer it with the default
status 200 (`res.send({ jwt })`). -/
def login (email password : Option String) (secret : Option String) (now : Nat)
    (s : Store) : Response × Store :=
  if jsFalsy email || jsFalsy password then
    (⟨400, .text "Email y contraseña son requeridos"⟩, s)
  else
    let s' := s.exec "SELECT * FROM users WHERE email = $1"
    if s.failing then (⟨500, .text "Error al iniciar sesión"⟩, s')
    else
      match s.rows.find? (fun u => u.email == email.getD "") with
      | none => (⟨401, .text "Email inválido"⟩, s')
      | some user =>
        if bcryptCompare (password.getD "") user.password then
          (⟨200, .jwtJson (signJwt (Nat.repr user.id_users) (textEncode secret) now)⟩, s')
        else (⟨401, .text "Contraseña inválida"⟩, s')

/-- Embedding of the exported `getLogin` (lines 87–103).  The export is again
only the final handler; it destructures `req.user`, so the embedding takes
the payload a caller would have attached.  It selects the row whose
`id_users` matches the string claim (the Postgres text-to-integer cast is
modelled by comparing decimal representations), answers 401 when none
matches, strips the password (`delete user.password`) and answers the user
with the default status 200; the catch block answers 401 — not 500 — on a
store failure. -/
def getLogin (reqUser : JwtPayload) (s : Store) : Response × Store :=
  let s' := s.exec "SELECT * FROM users WHERE id_users = $1"
  if s.failing then (⟨401, .text "Token inválido o expirado"⟩, s')
  else
    match s.rows.find? (fun u => Nat.repr u.id_users == reqUser.id_users) with
    | none => (⟨401, .text "Usuario no encontrado"⟩, s')
    | some user =>
      (⟨200, .userJson { user.serialize with password := none }⟩, s')

/-- Embedding of the exported `deleteUser` (lines 106–120); only the final
handler survives the comma expression, so no token check occurs.
`DELETE … WHERE id_users = $1 RETURNING *` removes every matching row and
`rows[0]` is the first; 404 when nothing matched, otherwise 200 with the
deleted row serialized in full (its password is not stripped). -/
def deleteUser (id : Nat) (s : Store) : Response × Store :=
  let s' := s.exec "DELETE FROM users WHERE id_users = $1 RETURNING *"
  if s.failing then (⟨500, .text "Error al eliminar el usuario"⟩, s')
  else
    match s.rows.find? (fun u => u.id_users == id) with
    | none => (⟨404, .text "Usuario no encontrado"⟩, s')
    | some user =>
      (⟨200, .userJson user.serialize⟩,
       { s' with rows := s.rows.filter (fun u => u.id_users != id) })

/-- Embedding of the exported `actualizateUser` (lines 123–146): 401
"Faltan datos" before any store access when name, email or password is falsy;
otherwise hash the new password, run
`UPDATE users SET … WHERE id_users = $4 RETURNING *` (500 on store failure),
404 when no row matched, otherwise strip the password from the returned row
and answer it with status 200. -/
def actualizateUser (id : Nat) (name email password : Option String)
    (salt : Nat) (s : Store) : Response × Store :=
  if jsFalsy name || jsFalsy email || jsFalsy password then
    (⟨401, .text "Faltan datos"⟩, s)
  else
    let hashed := bcryptHash (password.getD "") salt
    let s' := s.exec "UPDATE users SET name = $1, email = $2, password = $3 WHERE id_users = $4 RETURNING *"
    if s.failing then (⟨500, .text "Error al actualizar el usuario"⟩, s')
    else
      match s.rows.find? (fun u => u.id_users == id) with
      | none => (⟨404, .text "Usuario no encontrado"⟩, s')
      | some user =>
        let updated : UserRow := ⟨user.id_users, name.getD "", email.getD "", hashed⟩
        (⟨200, .userJson { updated.serialize with password := none }⟩,
         { s' with rows := s.rows.map (fun u =>
             if u.id_users == id then ⟨u.id_users, name.getD "", email.getD "", hashed⟩ else u) })

/-- A one-row table used as the concrete input of several closed theorems:
the user Ana with a digest of the password "pw1". -/
def demoStore : Store :=
  { rows := [⟨1, "Ana", "ana@x.com", bcryptHash "pw1" 0⟩],
    failing := false, nextId := 2, log := [] }

/-- The same table with the store failing. -/
def demoStoreFailing : Store := { demoStore with failing := true }

/-- The claim a verified token for Ana would carry at time 1000. -/
def demoPayload : JwtPayload := ⟨"1", 1000, 1000 + 7 * 3600⟩

/-- C10: verifying a plaintext against its own hash succeeds; two hashes of
the same plaintext under different salts differ yet both verify; verifying a
plaintext against the hash of a different plaintext fails. -/
theorem bcrypt_roundtrip_properties :
    (∀ p salt, bcryptCompare p (bcryptHash p salt) = true)
    ∧ (∀ p s1 s2, s1 ≠ s2 →
        bcryptHash p s1 ≠ bcryptHash p s2
        ∧ bcryptCompare p (bcryptHash p s1) = true
        ∧ bcryptCompare p (bcryptHash p s2) = true)
    ∧ (∀ p1 p2 salt, p1 ≠ p2 → bcryptCompare p1 (bcryptHash p2 salt) = false) := by
  refine ⟨fun p salt => ?_, fun p s1 s2 h => ⟨?_, ?_, ?_⟩, fun p1 p2 salt h => ?_⟩
  · simp [bcryptCompare, bcryptHash]
  · exact fun hc => h (congrArg BHash.salt hc)
  · simp [bcryptCompare, bcryptHash]
  · simp [bcryptCompare, bcryptHash]
  · simp [bcryptCompare, bcryptHash, h]

/-- Witness for C10 at the concrete plaintexts pw1 and pw2 with salts 0, 1. -/
theorem bcrypt_roundtrip_properties_witness :
    bcryptCompare "pw1" (bcryptHash "pw1" 0) = true
    ∧ bcryptHash "pw1" 0 ≠ bcryptHash "pw1" 1
    ∧ bcryptCompare "pw2" (bcryptHash "pw1" 0) = false :=
  ⟨bcrypt_roundtrip_properties.1 "pw1" 0,
   (bcrypt_roundtrip_properties.2.1 "pw1" 0 1 (by decide)).1,
   bcrypt_roundtrip_properties.2.2 "pw2" "pw1" 0 (by decide)⟩

/-- C6: an update request missing name, email or password is answered 401
"Faltan datos" and the store is returned untouched — no statement executed,
no row changed. -/
theorem actualizateUser_missing_field_401_no_mutation
    (id : Nat) (name email password : Option String) (salt : Nat) (s : Store)
    (h : name = none ∨ email = none ∨ password = none) :
    actualizateUser id name email password salt s = (⟨401, .text "Faltan datos"⟩, s) := by
  rcases h with h | h | h <;> subst h <;> simp [actualizateUser, jsFalsy]

/-- Witness for C6: update of user 1 with the name missing. -/
theorem actualizateUser_missing_field_401_no_mutation_witness :
    actualizateUser 1 none (some "ana@x.com") (some "pw1") 0 demoStore
      = (⟨401, .text "Faltan datos"⟩, demoStore) :=
  actualizateUser_missing_field_401_no_mutation 1 none (some "ana@x.com") (some "pw1") 0
    demoStore (Or.inl rfl)

/-- C9: deleting an id matching no row answers 404; deleting an existing id
answers 200 with the deleted row, and fetching that id from the resulting
store finds no user. -/
theorem deleteUser_contract :
    (∀ (id : Nat) (s : Store), s.failing = false →
      s.rows.find? (fun u => u.id_users == id) = none →
      (deleteUser id s).1 = ⟨404, .text "Usuario no encontrado"⟩)
    ∧ (∀ (id : Nat) (s : Store) (u : UserRow), s.failing = false →
      s.rows.find? (fun u => u.id_users == id) = some u →
      (deleteUser id s).1 = ⟨200, .userJson u.serialize⟩
      ∧ (deleteUser id s).2.findById id = none) := by
  constructor
  · intro id s hf hfind
    simp [deleteUser, hf, hfind]
  · intro id s u hf hfind
    refine ⟨by simp [deleteUser, hf, hfind], ?_⟩
    simp only [deleteUser, hf, hfind, Store.findById, Store.exec, Bool.false_eq_true,
      if_false]
    rw [List.find?_eq_none]
    intro x hx
    have hne := (List.mem_filter.mp hx).2
    simp only [bne_iff_ne, ne_eq, decide_eq_true_eq] at hne
    simp [hne]

/-- Witness for C9: delete of the absent id 2 and of the existing id 1 in the
one-row demo store. -/
theorem deleteUser_contract_witness :
    (deleteUser 2 demoStore).1 = ⟨404, .text "Usuario no encontrado"⟩
    ∧ (deleteUser 1 demoStore).1
        = ⟨200, .userJson (UserRow.serialize ⟨1, "Ana", "ana@x.com", bcryptHash "pw1" 0⟩)⟩
    ∧ (deleteUser 1 demoStore).2.findById 1 = none :=
  ⟨deleteUser_contract.1 2 demoStore (by decide) (by decide),
   (deleteUser_contract.2 1 demoStore ⟨1, "Ana", "ana@x.com", bcryptHash "pw1" 0⟩
      (by decide) (by decide)).1,
   (deleteUser_contract.2 1 demoStore ⟨1, "Ana", "ana@x.com", bcryptHash "pw1" 0⟩
      (by decide) (by decide)).2⟩

/-- C7: verification fails exactly when the token is malformed, the signature
key does not match, or the current time is outside the validity window; and
every verification failure — expired and tampered alike — makes
`authenticateToken` send the identical 401 response. -/
theorem jwtVerify_invalid_conditions :
    (∀ (h : JwtHeader) (p : JwtPayload) (k key : String) (now : Nat),
      verifyOk (jwtVerify (Jwt.signed h p k) key now) = true
        ↔ (k = key ∧ p.iat ≤ now ∧ now ≤ p.exp))
    ∧ (∀ (raw key : String) (now : Nat),
      verifyOk (jwtVerify (Jwt.malformed raw) key now) = false)
    ∧ (∀ (tok : Jwt) (sec : Option String) (now : Nat),
      verifyOk (jwtVerify tok (textEncode sec) now) = false →
      authenticateToken (some tok) sec now
        = .denied ⟨401, .text "Token inválido o expirado"⟩) := by
  refine ⟨?_, ?_, ?_⟩
  · intro h p k key now
    simp only [jwtVerify]
    split_ifs with h1 h2 h3
    · simp only [verifyOk, Bool.false_eq_true, false_iff]
      exact fun hc => h1 hc.1
    · simp only [verifyOk, Bool.false_eq_true, false_iff]
      rintro ⟨-, hiat, -⟩; omega
    · simp only [verifyOk, Bool.false_eq_true, false_iff]
      rintro ⟨-, -, hexp⟩; omega
    · simp only [verifyOk, true_iff]
      exact ⟨not_not.mp h1, by omega, by omega⟩
  · intro raw key now
    simp [jwtVerify, verifyOk]
  · intro tok sec now hfail
    cases hv : jwtVerify tok (textEncode sec) now with
    | error e => simp [authenticateToken, hv]
    | ok p => rw [hv] at hfail; simp [verifyOk] at hfail

/-- Witness for C7: an expired token and a tampered token (signed with a
different key) receive the identical 401 response. -/
theorem jwtVerify_invalid_conditions_witness :
    authenticateToken (some (signJwt "1" (textEncode (some "k")) 0)) (some "k") 99999
      = .denied ⟨401, .text "Token inválido o expirado"⟩
    ∧ authenticateToken (some (Jwt.signed ⟨"HS256", "JWT"⟩ ⟨"1", 0, 25200⟩ "other"))
        (some "k") 100
      = .denied ⟨401, .text "Token inválido o expirado"⟩ :=
  ⟨jwtVerify_invalid_conditions.2.2 (signJwt "1" (textEncode (some "k")) 0)
      (some "k") 99999 (by decide),
   jwtVerify_invalid_conditions.2.2 (Jwt.signed ⟨"HS256", "JWT"⟩ ⟨"1", 0, 25200⟩ "other")
      (some "k") 100 (by decide)⟩

/-- C8: a successful login answers status 200 with a token whose protected
header is `alg HS256, typ JWT`, whose claim is the authenticated user's id as
a string, whose issued-at is the current time and expiration is issued-at
plus 7 hours, signed with the encoded shared secret. -/
theorem login_token_structure
    (s : Store) (e p : String) (sec : Option String) (now : Nat) (u : UserRow)
    (hf : s.failing = false) (he : e ≠ "") (hp : p ≠ "")
    (hfind : s.rows.find? (fun r => r.email == e) = some u)
    (hpw : bcryptCompare p u.password = true) :
    (login (some e) (some p) sec now s).1
      = ⟨200, .jwtJson (Jwt.signed ⟨"HS256", "JWT"⟩
          ⟨Nat.repr u.id_users, now, now + 7 * 3600⟩ (textEncode sec))⟩ := by
  simp [login, jsFalsy, String.isEmpty_iff, he, hp, hf, hfind, hpw, signJwt]

/-- Witness for C8: Ana logs in against the demo store with the secret k at
time 1000. -/
theorem login_token_structure_witness :
    (login (some "ana@x.com") (some "pw1") (some "k") 1000 demoStore).1
      = ⟨200, .jwtJson (Jwt.signed ⟨"HS256", "JWT"⟩
          ⟨Nat.repr 1, 1000, 1000 + 7 * 3600⟩ (textEncode (some "k")))⟩ :=
  login_token_structure demoStore "ana@x.com" "pw1" (some "k") 1000
    ⟨1, "Ana", "ana@x.com", bcryptHash "pw1" 0⟩
    (by decide) (by decide) (by decide) (by decide) (by decide)

/-- C5: login answers 400 when email or password is missing, 401 when no
stored user has the given email, 401 when the password fails bcrypt
verification against the stored hash, and 200 with a token in the body when
both match. -/
theorem login_contract :
    (∀ (e p sec : Option String) (now : Nat) (s : Store),
      (e = none ∨ p = none) → (login e p sec now s).1.status = 400)
    ∧ (∀ (e p : String) (sec : Option String) (now : Nat) (s : Store),
      s.failing = false → e ≠ "" → p ≠ "" →
      s.rows.find? (fun r => r.email == e) = none →
      (login (some e) (some p) sec now s).1 = ⟨401, .text "Email inválido"⟩)
    ∧ (∀ (e p : String) (sec : Option String) (now : Nat) (s : Store) (u : UserRow),
      s.failing = false → e ≠ "" → p ≠ "" →
      s.rows.find? (fun r => r.email == e) = some u →
      bcryptCompare p u.password = false →
      (login (some e) (some p) sec now s).1 = ⟨401, .text "Contraseña inválida"⟩)
    ∧ (∀ (e p : String) (sec : Option String) (now : Nat) (s : Store) (u : UserRow),
      s.failing = false → e ≠ "" → p ≠ "" →
      s.rows.find? (fun r => r.email == e) = some u →
      bcryptCompare p u.password = true →
      (login (some e) (some p) sec now s).1.status = 200
      ∧ ∃ j, (login (some e) (some p) sec now s).1.body = .jwtJson j) := by
  refine ⟨?_, ?_, ?_, ?_⟩
  · intro e p sec now s h
    rcases h with h | h <;> subst h <;> simp [login, jsFalsy]
  · intro e p sec now s hf he hp hfind
    simp [login, jsFalsy, String.isEmpty_iff, he, hp, hf, hfind]
  · intro e p sec now s u hf he hp hfind hpw
    simp [login, jsFalsy, String.isEmpty_iff, he, hp, hf, hfind, hpw]
  · intro e p sec now s u hf he hp hfind hpw
    simp [login, jsFalsy, String.isEmpty_iff, he, hp, hf, hfind, hpw]

/-- Witness for C5: the four login outcomes at concrete requests against the
demo store. -/
theorem login_contract_witness :
    (login none (some "pw1") (some "k") 1000 demoStore).1.status = 400
    ∧ (login (some "no@x.com") (some "pw1") (some "k") 1000 demoStore).1
        = ⟨401, .text "Email inválido"⟩
    ∧ (login (some "ana@x.com") (some "bad") (some "k") 1000 demoStore).1
        = ⟨401, .text "Contraseña inválida"⟩
    ∧ (login (some "ana@x.com") (some "pw1") (some "k") 1000 demoStore).1.status = 200
    ∧ ∃ j, (login (some "ana@x.com") (some "pw1") (some "k") 1000 demoStore).1.body
        = .jwtJson j :=
  ⟨login_contract.1 none (some "pw1") (some "k") 1000 demoStore (Or.inl rfl),
   login_contract.2.1 "no@x.com" "pw1" (some "k") 1000 demoStore
     (by decide) (by decide) (by decide) (by decide),
   login_contract.2.2.1 "ana@x.com" "bad" (some "k") 1000 demoStore
     ⟨1, "Ana", "ana@x.com", bcryptHash "pw1" 0⟩
     (by decide) (by decide) (by decide) (by decide) (by decide),
   (login_contract.2.2.2 "ana@x.com" "pw1" (some "k") 1000 demoStore
     ⟨1, "Ana", "ana@x.com", bcryptHash "pw1" 0⟩
     (by decide) (by decide) (by decide) (by decide) (by decide)).1,
   (login_contract.2.2.2 "ana@x.com" "pw1" (some "k") 1000 demoStore
     ⟨1, "Ana", "ana@x.com", bcryptHash "pw1" 0⟩
     (by decide) (by decide) (by decide) (by decide) (by decide)).2⟩

/-- C1 counterexample: the list-users handler answers 200 with the stored
rows serialized in full, so its response body carries the stored password
digest — the invariant "password hash never serialized in any outbound
response" fails. -/
theorem getUser_response_exposes_password :
    (getUser demoStore).1.status = 200
    ∧ (getUser demoStore).1.body.exposesPassword = true := by decide

/-- C1 amended: get-self and update strip the password from their success
bodies and login bodies carry only the token, while list-users, create-user
and delete-user success bodies include the stored password digest. -/
theorem password_stripping_per_handler :
    (∀ (pay : JwtPayload) (s : Store), (getLogin pay s).1.status = 200 →
      (getLogin pay s).1.body.exposesPassword = false)
    ∧ (∀ (id : Nat) (n e p : Option String) (salt : Nat) (s : Store),
      (actualizateUser id n e p salt s).1.status = 200 →
      (actualizateUser id n e p salt s).1.body.exposesPassword = false)
    ∧ (∀ (e p sec : Option String) (now : Nat) (s : Store),
      (login e p sec now s).1.status = 200 →
      ∃ j, (login e p sec now s).1.body = .jwtJson j)
    ∧ (∀ (s : Store), s.failing = false → s.rows ≠ [] →
      (getUser s).1.status = 200 ∧ (getUser s).1.body.exposesPassword = true)
    ∧ (∀ (n e p : String) (salt : Nat) (s : Store), s.failing = false →
      (createUser n e (some p) salt s).1.status = 201
      ∧ (createUser n e (some p) salt s).1.body.exposesPassword = true)
    ∧ (∀ (id : Nat) (s : Store) (u : UserRow), s.failing = false →
      s.rows.find? (fun r => r.id_users == id) = some u →
      (deleteUser id s).1.status = 200
      ∧ (deleteUser id s).1.body.exposesPassword = true) := by
  refine ⟨?_, ?_, ?_, ?_, ?_, ?_⟩
  · intro pay s h
    cases hf : s.failing with
    | true => simp [getLogin, hf] at h
    | false =>
      cases hfind : s.rows.find? (fun u => Nat.repr u.id_users == pay.id_users) with
      | none => simp [getLogin, hf, hfind] at h
      | some u => simp [getLogin, hf, hfind, Body.exposesPassword]
  · intro id n e p salt s h
    by_cases hv : jsFalsy n || jsFalsy e || jsFalsy p
    · simp [actualizateUser, hv] at h
    · cases hf : s.failing with
      | true => simp [actualizateUser, hv, hf] at h
      | false =>
        cases hfind : s.rows.find? (fun u => u.id_users == id) with
        | none => simp [actualizateUser, hv, hf, hfind] at h
        | some u => simp [actualizateUser, hv, hf, hfind, Body.exposesPassword]
  · intro e p sec now s h
    by_cases hv : jsFalsy e || jsFalsy p
    · simp [login, hv] at h
    · cases hf : s.failing with
      | true => simp [login, hv, hf] at h
      | false =>
        cases hfind : s.rows.find? (fun u => u.email == e.getD "") with
        | none => simp [login, hv, hf, hfind] at h
        | some u =>
          cases hpw : bcryptCompare (p.getD "") u.password with
          | false => simp [login, hv, hf, hfind, hpw] at h
          | true =>
            exact ⟨signJwt (Nat.repr u.id_users) (textEncode sec) now,
              by simp [login, hv, hf, hfind, hpw]⟩
  · intro s hf hne
    cases hr : s.rows with
    | nil => exact absurd hr hne
    | cons a l =>
      simp [getUser, hf, hr, Body.exposesPassword, UserRow.serialize]
  · intro n e p salt s hf
    simp [createUser, hf, Body.exposesPassword, UserRow.serialize]
  · intro id s u hf hfind
    simp [deleteUser, hf, hfind, Body.exposesPassword, UserRow.serialize]

/-- Witness for C1 amended: get-self strips the password while list-users and
delete expose it, all at the demo store. -/
theorem password_stripping_per_handler_witness :
    (getLogin demoPayload demoStore).1.body.exposesPassword = false
    ∧ (getUser demoStore).1.body.exposesPassword = true
    ∧ (deleteUser 1 demoStore).1.body.exposesPassword = true :=
  ⟨password_stripping_per_handler.1 demoPayload demoStore (by decide),
   (password_stripping_per_handler.2.2.2.1 demoStore (by decide) (by decide)).2,
   (password_stripping_per_handler.2.2.2.2.2 1 demoStore
      ⟨1, "Ana", "ana@x.com", bcryptHash "pw1" 0⟩ (by decide) (by decide)).2⟩

/-- C2: the exported list-users handler is only the final operand of the
comma expression, so a request carrying no authorization token is not
answered 401: the SELECT reaches the store and the handler answers 200 with
every row. -/
theorem getUser_no_token_reaches_store :
    (getUser demoStore).1
      = ⟨200, .usersJson [⟨1, "Ana", "ana@x.com", some (bcryptHash "pw1" 0)⟩]⟩
    ∧ (getUser demoStore).2.log = ["SELECT * FROM users"] := by decide

/-- C3 counterexample: with the environment secret absent, login on valid
credentials still issues a token (signed with the encoding of the empty
string) and `authenticateToken` still verifies that token successfully —
token operations do not fail closed. -/
theorem secret_absent_not_fail_closed :
    (login (some "ana@x.com") (some "pw1") none 1000 demoStore).1
      = ⟨200, .jwtJson (Jwt.signed ⟨"HS256", "JWT"⟩ ⟨"1", 1000, 26200⟩ "")⟩
    ∧ authenticateToken (some (Jwt.signed ⟨"HS256", "JWT"⟩ ⟨"1", 1000, 26200⟩ ""))
        none 2000
      = .granted ⟨"1", 1000, 26200⟩ := by decide

/-- C3 amended: an absent secret is encoded to the same key as the empty
string, so token operations proceed with that empty key: a successful login
still issues a token signed with it, and a token so issued still verifies
within its validity window. -/
theorem secret_absent_empty_key_behaviour
    (e p : String) (now : Nat) (s : Store) (he : e ≠ "") (hp : p ≠ "") :
    textEncode none = textEncode (some "")
    ∧ ((login (some e) (some p) none now s).1.status = 200 →
        ∃ id, (login (some e) (some p) none now s).1.body = .jwtJson (signJwt id "" now))
    ∧ (∀ (id : String) (t : Nat), now ≤ t → t ≤ now + 7 * 3600 →
        authenticateToken (some (signJwt id "" now)) none t
          = .granted ⟨id, now, now + 7 * 3600⟩) := by
  refine ⟨rfl, ?_, ?_⟩
  · intro h
    cases hf : s.failing with
    | true => simp [login, jsFalsy, String.isEmpty_iff, he, hp, hf] at h
    | false =>
      cases hfind : s.rows.find? (fun u => u.email == e) with
      | none => simp [login, jsFalsy, String.isEmpty_iff, he, hp, hf, hfind] at h
      | some u =>
        cases hpw : bcryptCompare p u.password with
        | false => simp [login, jsFalsy, String.isEmpty_iff, he, hp, hf, hfind, hpw] at h
        | true =>
          exact ⟨Nat.repr u.id_users,
            by simp [login, jsFalsy, String.isEmpty_iff, he, hp, hf, hfind, hpw, textEncode]⟩
  · intro id t hle hwin
    simp only [authenticateToken, signJwt, jwtVerify, textEncode]
    rw [if_neg (by simp), if_neg (by omega), if_neg (by omega)]

/-- Witness for C3 amended: Ana's login at time 1000 with the secret absent,
and verification of the resulting empty-key token at time 2000. -/
theorem secret_absent_empty_key_behaviour_witness :
    (∃ id, (login (some "ana@x.com") (some "pw1") none 1000 demoStore).1.body
        = .jwtJson (signJwt id "" 1000))
    ∧ authenticateToken (some (signJwt "1" "" 1000)) none 2000
        = .granted ⟨"1", 1000, 1000 + 7 * 3600⟩ :=
  ⟨(secret_absent_empty_key_behaviour "ana@x.com" "pw1" 1000 demoStore
      (by decide) (by decide)).2.1 (by decide),
   (secret_absent_empty_key_behaviour "ana@x.com" "pw1" 1000 demoStore
      (by decide) (by decide)).2.2 "1" 2000 (by decide) (by decide)⟩

/-- C4 counterexample: a store failure during the get-self core operation is
answered from the catch block with status 401, not 500. -/
theorem getLogin_store_failure_not_500 :
    (getLogin demoPayload demoStoreFailing).1 = ⟨401, .text "Token inválido o expirado"⟩
    ∧ (getLogin demoPayload demoStoreFailing).1.status ≠ 500 := by decide

/-- C4 amended: a store failure is answered 500 with a short generic message
by the list, create, login, delete and update handlers, but the get-self
handler answers it 401 "Token inválido o expirado". -/
theorem store_failure_status_mapping
    (s : Store) (hf : s.failing = true)
    (n e p : String) (hn : n ≠ "") (he : e ≠ "") (hp : p ≠ "")
    (salt id now : Nat) (sec : Option String) (pay : JwtPayload) :
    (getUser s).1.status = 500
    ∧ (createUser n e (some p) salt s).1.status = 500
    ∧ (login (some e) (some p) sec now s).1.status = 500
    ∧ (deleteUser id s).1.status = 500
    ∧ (actualizateUser id (some n) (some e) (some p) salt s).1.status = 500
    ∧ (getLogin pay s).1 = ⟨401, .text "Token inválido o expirado"⟩ := by
  simp [getUser, createUser, login, deleteUser, actualizateUser, getLogin,
    jsFalsy, String.isEmpty_iff, hf, hn, he, hp]

/-- Witness for C4 amended: every handler run against the failing demo
store. -/
theorem store_failure_status_mapping_witness :
    (getUser demoStoreFailing).1.status = 500
    ∧ (createUser "Ana" "ana@x.com" (some "pw1") 0 demoStoreFailing).1.status = 500
    ∧ (login (some "ana@x.com") (some "pw1") (some "k") 1000 demoStoreFailing).1.status = 500
    ∧ (deleteUser 1 demoStoreFailing).1.status = 500
    ∧ (actualizateUser 1 (some "Ana") (some "ana@x.com") (some "pw1") 0
        demoStoreFailing).1.status = 500
    ∧ (getLogin demoPayload demoStoreFailing).1
        = ⟨401, .text "Token inválido o expirado"⟩ :=
  store_failure_status_mapping demoStoreFailing (by decide) "Ana" "ana@x.com" "pw1"
    (by decide) (by decide) (by decide) 0 1 1000 (some "k") demoPayload

end Proyecto22
